import Mathlib

/-!
# Verification of the `ai-quiz` quiz-variant generation pipeline

Shallow embedding of the question-loading / quiz-assembly / answer-randomizing /
artifact-rendering pipeline of `quiz_generator.py` and of the batch orchestrator of
`quiz_generator_batch.py`, together with theorems settling the specification claims.

Python strings are embedded as `List Char` (named `Str` here); Python's global
`random` module state is embedded as an explicit deterministic generator state
threaded through all randomized operations.
-/

namespace AiQuiz

/-- Python strings are modelled as lists of characters. -/
abbrev Str := List Char

/-- Coerce a Lean string literal to the `List Char` representation. -/
def str (s : String) : Str := s.data

/-- Fuel-indexed worker for Python's `str.replace`: scan left to right, replace each
non-overlapping occurrence of `old` by `new`.  The fuel is an upper bound on the number
of scanning steps (one step consumes at least one character when `old` is nonempty). -/
def pyReplaceAux (old new : Str) : Nat → Str → Str
  | 0, s => s
  | _ + 1, [] => []
  | fuel + 1, c :: rest =>
    if old ≠ [] ∧ old.isPrefixOf (c :: rest) then
      new ++ pyReplaceAux old new fuel (List.drop old.length (c :: rest))
    else
      c :: pyReplaceAux old new fuel rest

/-- Python's `text.replace(old, new)` for nonempty `old` (every call in the source uses a
single-character `old`).  For `old = []` this returns `s` unchanged, diverging from
Python's empty-pattern behaviour, which the source never exercises. -/
def pyReplace (s old new : Str) : Str := pyReplaceAux old new s.length s

/-- `QuestionGenerator._escape_js_string` (quiz_generator.py:505-513): escape backslash
first, then double quote, then newline, then carriage return. -/
def escapeJsString (text : Str) : Str :=
  pyReplace (pyReplace (pyReplace (pyReplace text
    (str "\\") (str "\\\\"))
    (str "\"") (str "\\\""))
    (str "\n") (str "\\n"))
    (str "\r") (str "\\r")

/-- Per-character form of the JS escaping: the image of one character under the
four-stage replacement chain of `_escape_js_string`. -/
def escJsChar (c : Char) : Str :=
  if c = '\\' then str "\\\\"
  else if c = '"' then str "\\\""
  else if c = '\n' then str "\\n"
  else if c = '\r' then str "\\r"
  else [c]

/-- Single-character substitution: the semantics of Python `replace` when the pattern
is one character long. -/
def subst1 (p : Char) (new : Str) : Str → Str
  | [] => []
  | c :: rest => (if c = p then new else [c]) ++ subst1 p new rest

/-- One left-to-right pass that escapes each character of the input exactly once. -/
def escapeJsOnce : Str → Str
  | [] => []
  | c :: rest => escJsChar c ++ escapeJsOnce rest

/-! ## JSON serialization of string lists (model of `json.dumps` on `List[str]`) -/

/-- Lower-case hexadecimal digit. -/
def hexDigit (n : Nat) : Char :=
  if n < 10 then Char.ofNat ('0'.toNat + n) else Char.ofNat ('a'.toNat + (n - 10))

/-- Four-digit hexadecimal rendering, as used by JSON `\uXXXX` escapes. -/
def hex4 (n : Nat) : Str :=
  [hexDigit (n / 4096 % 16), hexDigit (n / 256 % 16), hexDigit (n / 16 % 16),
   hexDigit (n % 16)]

/-- Per-character escaping of Python's `json.dumps` with its default
`ensure_ascii=True`: short escapes for quote, backslash and common controls,
`\uXXXX` for other controls and all non-ASCII characters (surrogate pairs above
the basic plane). -/
def jsonEscapeChar (c : Char) : Str :=
  if c = '"' then str "\\\""
  else if c = '\\' then str "\\\\"
  else if c = '\n' then str "\\n"
  else if c = '\r' then str "\\r"
  else if c = '\t' then str "\\t"
  else if c = '\x08' then str "\\b"
  else if c = '\x0c' then str "\\f"
  else if c.toNat < 32 then str "\\u" ++ hex4 c.toNat
  else if c.toNat ≤ 126 then [c]
  else if c.toNat ≤ 65535 then str "\\u" ++ hex4 c.toNat
  else
    str "\\u" ++ hex4 (55296 + (c.toNat - 65536) / 1024) ++
    str "\\u" ++ hex4 (56320 + (c.toNat - 65536) % 1024)

/-- `json.dumps` escaping of a whole string (content between the quotes). -/
def jsonEscape : Str → Str
  | [] => []
  | c :: rest => jsonEscapeChar c ++ jsonEscape rest

/-- A JSON string literal. -/
def jsonQuote (s : Str) : Str := '"' :: (jsonEscape s ++ ['"'])

/-- `json.dumps` on a list of strings (default separator `", "`). -/
def jsonDumpsList (xs : List Str) : Str :=
  str "[" ++ List.intercalate (str ", ") (xs.map jsonQuote) ++ str "]"

/-- Decimal rendering of a natural number, as Python string interpolation of an int. -/
def natStr (n : Nat) : Str := (Nat.repr n).data

/-! ## Data model: question records, parsed JSON files, Python exceptions -/

/-- The value found under the `answers` key of a question record: either an actual
list (of the option strings the data carries) or a value that fails the
`isinstance(..., list)` check of `_validate_question`. -/
inductive AnswersVal where
  | strings (xs : List Str)
  | nonList
deriving DecidableEq

/-- One raw record of a question JSON file.  `none` in a field means the key is
absent from the dict (`field not in question`).  Field values are modelled at the
types the quiz data carries (strings / lists of strings); a present-but-non-list
`answers` value is `AnswersVal.nonList`. -/
structure RawQuestion where
  question : Option Str
  answers : Option AnswersVal
  correct : Option Str
deriving DecidableEq

/-- The Python exceptions raised by the generation pipeline. -/
inductive PyExc where
  | valueError (msg : Str)
  | fileNotFoundError (msg : Str)
  | runtimeError (msg : Str)
deriving DecidableEq

/-- The matching test of `except RuntimeError` handlers. -/
def isRuntimeError : PyExc → Bool
  | .runtimeError _ => true
  | _ => false

/-- `QuestionGenerator._validate_question` (quiz_generator.py:161-196): all three
required fields present, `answers` a list of exactly 4 options, `correct` a member
of `answers`.  The index argument is used only for log messages in the source. -/
def validateQuestion (question : RawQuestion) (_index : Nat) : Bool :=
  if question.question.isNone ∨ question.answers.isNone ∨ question.correct.isNone then
    false
  else
    match question.answers with
    | some (.strings xs) =>
      if xs.length ≠ 4 then false
      else
        match question.correct with
        | some c => if c ∈ xs then true else false
        | none => false
    | _ => false

/-- The validation loop of `load_questions` (quiz_generator.py:144-148): walk the
records with their indices, skipping the invalid ones. -/
def collectValid : Nat → List RawQuestion → List RawQuestion
  | _, [] => []
  | i, q :: rest =>
    if validateQuestion q i then q :: collectValid (i + 1) rest
    else collectValid (i + 1) rest

/-- What a path resolves to: a file whose contents `json.load` rejects, a parsed
value whose top level is not a list, or a parsed list of question records. -/
inductive JsonFile where
  | malformed
  | nonListTop
  | records (rs : List RawQuestion)

/-- The filesystem as seen by the loader; `none` means the file does not exist. -/
def Env := Str → Option JsonFile

/-- `QuestionGenerator.load_questions` (quiz_generator.py:116-159): `FileNotFoundError`
for a missing file, `ValueError` for undecodable JSON or a non-list top level,
otherwise the valid records in order. -/
def loadQuestions (env : Env) (jsonPath : Str) : Except PyExc (List RawQuestion) :=
  match env jsonPath with
  | none => .error (.fileNotFoundError (str "Question file not found: " ++ jsonPath))
  | some .malformed => .error (.valueError (str "Invalid JSON format in " ++ jsonPath))
  | some .nonListTop =>
    .error (.valueError (str "JSON file must contain a list of questions"))
  | some (.records rs) => .ok (collectValid 0 rs)

/-! ## The process-wide pseudorandom sequence (model of the `random` module) -/

/-- The state of the process-wide pseudorandom sequence. -/
abbrev Rng := Nat

/-- Deterministic stand-in for the `random` module's generator step (a linear
congruential update).  Every property proved below depends only on the stream
being a deterministic function of the seed, not on its distribution. -/
def rngNext (s : Rng) : Nat × Rng :=
  let s' := (s * 1103515245 + 12345) % 2147483648
  (s' / 65536, s')

/-- `random.seed(n)`: reset the process-wide sequence to a function of `n` alone. -/
def seedRng (n : Nat) : Rng := n % 2147483648

/-- Draw a value below `n` from the sequence (the `_randbelow` primitive). -/
def randBelow (r : Rng) (n : Nat) : Nat × Rng :=
  let v := rngNext r
  (v.1 % n, v.2)

/-- Worker for `random.sample`: draw `k` elements without replacement by repeatedly
picking a position uniformly and removing it.  (The `[]` case with positive `k` is
where Python raises; every call site checks `k ≤ length` first.) -/
def sampleAux {α : Type} : Nat → List α → Rng → List α × Rng
  | 0, _, r => ([], r)
  | _ + 1, [], r => ([], r)
  | k + 1, x :: xs, r =>
    let p := randBelow r (x :: xs).length
    let chosen := (x :: xs).getD p.1 x
    let q := sampleAux k ((x :: xs).eraseIdx p.1) p.2
    (chosen :: q.1, q.2)

/-- `random.sample(population, k)`. -/
def pySample {α : Type} (population : List α) (k : Nat) (r : Rng) : List α × Rng :=
  sampleAux k population r

/-- `random.shuffle(xs)`: a uniform permutation of the whole list, modelled as a
full-length draw without replacement (the same family of permutations the in-place
Fisher-Yates of the stdlib produces). -/
def pyShuffle {α : Type} (xs : List α) (r : Rng) : List α × Rng :=
  sampleAux xs.length xs r

/-! ## Multi-file loading with per-collection sampling -/

/-- One entry of the `file_configs` list: a path and the number of questions to draw. -/
structure FileConfig where
  path : Str
  count : Nat
deriving DecidableEq

/-- The `ValueError` message of `load_questions_from_multiple_files`
(quiz_generator.py:101-105), naming the offending file and both counts. -/
def insufficientMsg (filePath : Str) (available required : Nat) : Str :=
  str "File " ++ filePath ++ str " has only " ++ natStr available ++
    str " questions, but " ++ natStr required ++ str " required"

/-- The loop body of `load_questions_from_multiple_files` (quiz_generator.py:91-114):
load each file, fail if it holds fewer valid questions than required, otherwise draw
`count` of them without replacement and append to the accumulator.  The generator
state is returned alongside; on an exception it is the state at the raise point. -/
def loadMultipleGo (env : Env) :
    List FileConfig → List RawQuestion → Rng → Except PyExc (List RawQuestion) × Rng
  | [], acc, r => (.ok acc, r)
  | cfg :: rest, acc, r =>
    match loadQuestions env cfg.path with
    | .error e => (.error e, r)
    | .ok fileQuestions =>
      if fileQuestions.length < cfg.count then
        (.error (.valueError (insufficientMsg cfg.path fileQuestions.length cfg.count)), r)
      else
        let sel := pySample fileQuestions cfg.count r
        loadMultipleGo env rest (acc ++ sel.1) sel.2

/-- `QuestionGenerator.load_questions_from_multiple_files` (quiz_generator.py:74-114). -/
def loadQuestionsFromMultipleFiles (env : Env) (fileConfigs : List FileConfig)
    (r : Rng) : Except PyExc (List RawQuestion) × Rng :=
  loadMultipleGo env fileConfigs [] r

/-! ## Answer randomizer (`convert_format`) -/

/-- Field access `question['question']` on records coming out of `load_questions`
(where the field is always present; Python would raise `KeyError` otherwise). -/
def qQuestion (q : RawQuestion) : Str := q.question.getD []

/-- Field access `question['answers']` on validated records (always a list there). -/
def qAnswers (q : RawQuestion) : List Str :=
  match q.answers with
  | some (.strings xs) => xs
  | _ => []

/-- Field access `question['correct']` on validated records. -/
def qCorrect (q : RawQuestion) : Str := q.correct.getD []

/-- One question in the JavaScript-ready format produced by `convert_format`. -/
structure JsQuestion where
  question : Str
  choices : List Str
  correct : Nat
deriving DecidableEq

/-- Python `list.index`: position of the first element equal to `a`.  Python raises
`ValueError` on a missing element; the pipeline only calls this under the loader's
guarantee `correct ∈ answers`, where the result is the first matching position. -/
def pyIndex {α : Type} [DecidableEq α] : List α → α → Nat
  | [], _ => 0
  | x :: rest, a => if x = a then 0 else pyIndex rest a + 1

/-- `QuestionGenerator.convert_format` (quiz_generator.py:198-236): copy each
question's answers, optionally shuffle them, and record the position of the correct
answer in the (possibly shuffled) choices. -/
def convertFormat (questions : List RawQuestion) (shuffleChoices : Bool)
    (r : Rng) : List JsQuestion × Rng :=
  match questions with
  | [] => ([], r)
  | q :: rest =>
    let sh := if shuffleChoices then pyShuffle (qAnswers q) r else (qAnswers q, r)
    let correctIndex := pyIndex sh.1 (qCorrect q)
    let restOut := convertFormat rest shuffleChoices sh.2
    ({ question := qQuestion q, choices := sh.1, correct := correctIndex } :: restOut.1,
      restOut.2)

/-! ## Artifact generator (`_format_questions_for_js` and `generate_script`) -/

/-- One per-question block of `_format_questions_for_js` (quiz_generator.py:533-537):
the prompt escaped by `_escape_js_string` inside a double-quoted literal, the choices
escaped by `_escape_js_string` and then serialized again by `json.dumps`. -/
def questionBlock (q : JsQuestion) : Str :=
  str "    \x7b\n      question: \"" ++ escapeJsString q.question ++
  str "\",\n      choices: " ++ jsonDumpsList (q.choices.map escapeJsString) ++
  str ",\n      correct: " ++ natStr q.correct ++ str "\n    \x7d"

/-- The loop of `_format_questions_for_js` (quiz_generator.py:529-541): a comma after
every block except the last, a newline after each block. -/
def questionBlocks : List JsQuestion → Str
  | [] => []
  | [q] => questionBlock q ++ str "\n"
  | q :: rest => questionBlock q ++ str ",\n" ++ questionBlocks rest

/-- `QuestionGenerator._format_questions_for_js` (quiz_generator.py:515-544). -/
def formatQuestionsForJs (questions : List JsQuestion) : Str :=
  str "[\n" ++ questionBlocks questions ++ str "  ]"

/-- The mutable state of one Python process running a `QuestionGenerator`: the
generator's configuration attributes plus the process-wide `random` state. -/
structure ProcState where
  language : Str
  resultsSheet : Str
  title : Str
  description : Str
  pointsPerQuestion : Nat
  confirmationMessage : Str
  rng : Rng
deriving DecidableEq

/-- Python `str.upper()` (ASCII case mapping, all the language codes used are ASCII). -/
def pyUpper (s : Str) : Str := s.map Char.toUpper

/-- Literal template text of `generate_script` (chunk 1). -/
def scriptChunk1 : Str := str "/**\n * Creates an AI Knowledge Quiz with "

/-- Literal template text of `generate_script` (chunk 2). -/
def scriptChunk2 : Str := str " questions\n * - Autograded multiple choice questions with "

/-- Literal template text of `generate_script` (chunk 3). -/
def scriptChunk3 : Str := str " point(s) each\n * - Immediate feedback showing correct answers and score\n * - Email notification with PASS/FAIL result (70% threshold)\n * - Centralized response collection in Google Sheets: "

/-- Literal template text of `generate_script` (chunk 4). -/
def scriptChunk4 : Str := str "\n */\nfunction createRandomAIQuiz() \x7b\n  const questionsPool = "

/-- Literal template text of `generate_script` (chunk 5). -/
def scriptChunk5 : Str := str ";\n\n  // Shuffle and pick "

/-- Literal template text of `generate_script` (chunk 6). -/
def scriptChunk6 : Str := str " questions\n  const selectedQuestions = shuffleArray(questionsPool).slice(0, "

/-- Literal template text of `generate_script` (chunk 7). -/
def scriptChunk7 : Str := str ");\n\n  // Create the quiz form\n  const form = FormApp.create('"

/-- Literal template text of `generate_script` (chunk 8). -/
def scriptChunk8 : Str := str "')\n    .setIsQuiz(true)\n    .setCollectEmail(true)\n    .setShowLinkToRespondAgain(false);\n\n  "

/-- Literal template text of `generate_script` (chunk 9). -/
def scriptChunk9 : Str := str "form.setTitle('"

/-- Literal template text of `generate_script` (chunk 10). -/
def scriptChunk10 : Str := str "');\n  "

/-- Literal template text of `generate_script` (chunk 11). -/
def scriptChunk11 : Str := str "form.setDescription('"

/-- Literal template text of `generate_script` (chunk 12). -/
def scriptChunk12 : Str := str "');"

/-- Literal template text of `generate_script` (chunk 13). -/
def scriptChunk13 : Str := str "\n\n  // Link form to Google Sheets for centralized response collection\n  try \x7b\n    const spreadsheetId = '"

/-- Literal template text of `generate_script` (chunk 14). -/
def scriptChunk14 : Str := str "';\n    form.setDestination(FormApp.DestinationType.SPREADSHEET, spreadsheetId);\n    Logger.log(`‚úÖ Form linked to Google Sheets: $\x7bspreadsheetId\x7d`);\n  \x7d catch (error) \x7b\n    Logger.log(`‚ö†Ô∏è  Could not link to spreadsheet: $\x7berror.message\x7d`);\n    Logger.log('Form will store responses in its own response sheet');\n  \x7d\n\n  // Optional settings for better UX\n  form.setPublishingSummary(false);\n  form.setLimitOneResponsePerUser(true);\n  "

/-- Literal template text of `generate_script` (chunk 15). -/
def scriptChunk15 : Str := str "form.setConfirmationMessage('"

/-- Literal template text of `generate_script` (chunk 16). -/
def scriptChunk16 : Str := str "');"

/-- Literal template text of `generate_script` (chunk 17). -/
def scriptChunk17 : Str := str "\n\n  // Helper function to add a fully-configured MC question\n  const addMCQuestion = (questionData) => \x7b\n    const item = form.addMultipleChoiceItem();\n    item.setTitle(questionData.question)\n        .setPoints("

/-- Literal template text of `generate_script` (chunk 18). -/
def scriptChunk18 : Str := str ")\n        .setRequired(true);\n\n    // Build choices with exactly one correct answer\n    const choices = questionData.choices.map((choice, index) =>\n      item.createChoice(choice, index === questionData.correct)\n    );\n    item.setChoices(choices);\n\n    // Optional feedback for immediate learning\n    const fbCorrect = FormApp.createFeedback().setText('Correct! ‚úÖ').build();\n    const fbIncorrect = FormApp.createFeedback().setText('Review this topic.').build();\n    item.setFeedbackForCorrect(fbCorrect);\n    item.setFeedbackForIncorrect(fbIncorrect);\n\n    return item;\n  \x7d;\n\n  // Add all selected questions to the form\n  selectedQuestions.forEach(questionData => \x7b\n    addMCQuestion(questionData);\n  \x7d);\n\n  // Clean up any existing triggers for this handler to avoid duplicates\n  ScriptApp.getProjectTriggers()\n    .filter(trigger => trigger.getHandlerFunction() === 'onFormSubmit')\n    .forEach(trigger => ScriptApp.deleteTrigger(trigger));\n\n  // Create the form submission trigger for PASS/FAIL email logic\n  ScriptApp.newTrigger('onFormSubmit')\n    .forForm(form)\n    .onFormSubmit()\n    .create();\n\n  const totalPoints = selectedQuestions.length * "

/-- Literal template text of `generate_script` (chunk 19). -/
def scriptChunk19 : Str := str ";\n  const passingScore = Math.ceil(totalPoints * 0.7);\n\n  Logger.log('=== QUIZ CREATED SUCCESSFULLY ===');\n  Logger.log(`Questions: $\x7bselectedQuestions.length\x7d`);\n  Logger.log(`Points per question: "

/-- Literal template text of `generate_script` (chunk 20). -/
def scriptChunk20 : Str := str "`);\n  Logger.log(`Total possible points: $\x7btotalPoints\x7d`);\n  Logger.log(`Passing score (70%): $\x7bpassingScore\x7d points`);\n  Logger.log('');\n  Logger.log('Form URLs:');\n  Logger.log('Edit form: ' + form.getEditUrl());\n  Logger.log('Live quiz: ' + form.getPublishedUrl());\n  Logger.log('');\n  Logger.log('‚úÖ Trigger installed for PASS/FAIL email notifications');\n\n  return \x7b\n    publishedUrl: form.getPublishedUrl(),\n    editUrl: form.getEditUrl(),\n    formId: form.getId()\n  \x7d;\n\x7d\n\n// Helper function to shuffle array\nfunction shuffleArray(array) \x7b\n  let currentIndex = array.length, temporaryValue, randomIndex;\n  while (0 !== currentIndex) \x7b\n    randomIndex = Math.floor(Math.random() * currentIndex);\n    currentIndex--;\n    // Swap\n    temporaryValue = array[currentIndex];\n    array[currentIndex] = array[randomIndex];\n    array[randomIndex] = temporaryValue;\n  \x7d\n  return array;\n\x7d\n\n/**\n * On submit: compute score by comparing responses to marked correct choices\n * for all Multiple Choice items, then email PASS/FAIL at 70%.\n */\nfunction onFormSubmit(e) \x7b\n  const form = e.source;\n  const response = e.response;\n\n  const email = response.getRespondentEmail();\n  if (!email) return;\n\n  const mcItems = form.getItems(FormApp.ItemType.MULTIPLE_CHOICE);\n  let totalPoints = 0;\n  let earnedPoints = 0;\n\n  mcItems.forEach(item => \x7b\n    const mci = item.asMultipleChoiceItem();\n    const points = mci.getPoints() || 0;\n    totalPoints += points;\n\n    const ir = response.getResponseForItem(item);\n    const answer = ir ? ir.getResponse() : null;\n\n    const correctChoice = mci.getChoices().find(c => c.isCorrectAnswer());\n    const correctValue = correctChoice ? correctChoice.getValue() : null;\n\n    if (answer !== null && correctValue !== null && answer === correctValue) \x7b\n      earnedPoints += points;\n    \x7d\n  \x7d);\n\n  const pct = totalPoints > 0 ? (earnedPoints / totalPoints) * 100 : 0;\n  const passed = pct >= 70;\n\n  const subject = `AI Citizen: $\x7bMath.round(pct)\x7d% ‚Äî $\x7bpassed ? 'PASS ‚úÖ' : 'FAIL ‚ùå'\x7d`;\n\n  const HERO_IMAGE_URL = `https://cdn.haip.hooloovoo.rs/$\x7bpassed ? \"pass\" : \"fail\"\x7d.jpg`;\n  const heroBlob = UrlFetchApp.fetch(HERO_IMAGE_URL, \x7b muteHttpExceptions: true \x7d).getBlob().setName(\"hero.jpg\");\n\n  const textBody = `Hvala ≈°to ste uƒçestvovali u kvizu! / Thanks for taking the quiz!\n\nüéØ: $\x7bearnedPoints\x7d / $\x7btotalPoints\x7d ($\x7bpct.toFixed(1)\x7d%)\nüèÅ: $\x7bpassed ? 'PASS ‚úÖ' : 'FAIL ‚ùå'\x7d`;\n\n  const htmlBody = `<!doctype html>\n<html lang=\"en\">\n  <body style=\"margin:0;padding:0;background:#f6f6f6;\">\n    <table role=\"presentation\" width=\"100%\" cellpadding=\"0\" cellspacing=\"0\" style=\"background:#f6f6f6;\">\n      <tr>\n        <td align=\"center\" style=\"padding:24px;\">\n          <table role=\"presentation\" cellpadding=\"0\" cellspacing=\"0\" width=\"600\" style=\"max-width:600px;background:#ffffff;border-radius:8px;overflow:hidden;\">\n            <tr>\n              <td align=\"center\" style=\"padding:24px;\">\n                <h1 style=\"margin:0;font-family:Arial,Helvetica,sans-serif;font-size:20px;line-height:1.3;color:#222;\">\n                  AI Citizen\n                </h1>\n                <p style=\"font-family:Arial,Helvetica,sans-serif;color:#555;margin:12px 0 24px;\">\n                  Hvala ≈°to ste uƒçestvovali u kvizu! / Thanks for taking the quiz!\n                </p>\n              </td>\n            </tr>\n\n            <tr>\n              <td style=\"padding:0 24px 24px;\">\n                <table role=\"presentation\" width=\"100%\" cellpadding=\"0\" cellspacing=\"0\" style=\"border:1px solid #eee;border-radius:8px;\">\n                  <tr>\n                    <td style=\"padding:16px 20px;font-family:Arial,Helvetica,sans-serif;color:#333;\">\n                      <div style=\"font-size:16px;margin-bottom:6px;\">üéØ: <strong>$\x7bearnedPoints\x7d / $\x7btotalPoints\x7d</strong> ($\x7bpct.toFixed(1)\x7d%)</div>\n                      <div style=\"font-size:16px;\">üèÅ: <strong>$\x7bpassed ? \"PASS ‚úÖ\" : \"FAIL ‚ùå\"\x7d</strong></div>\n                    </td>\n                  </tr>\n                </table>\n              </td>\n            </tr>\n\n            <!-- HERO as CID (no hosting needed) -->\n            <tr>\n              <td align=\"center\" style=\"padding:0 24px 24px;\">\n                <img src=\"cid:hero-cid\" width=\"600\" height=\"200\" alt=\"Hero\"\n                     style=\"display:block;border:0;outline:0;text-decoration:none;margin:0 auto;max-width:100%;height:auto;\">\n              </td>\n            </tr>\n\n            <tr>\n              <td style=\"padding:0 24px 24px;\">\n                <p style=\"font-family:Arial,Helvetica,sans-serif;color:#666;margin:0;\">\n                  Ova poruka je automatski poslata nakon podno≈°enja Google Forme.\n                </p>\n              </td>\n            </tr>\n          </table>\n        </td>\n      </tr>\n    </table>\n  </body>\n</html>`;\n\n  MailApp.sendEmail(\x7b\n    to: email,\n    subject: subject,\n    body: textBody,\n    htmlBody: htmlBody,\n    inlineImages: \x7b\n      \"hero-cid\": heroBlob\n    \x7d,\n    name: \"AI Citizen Quiz\"\n  \x7d);\n\n\n\x7d"

/-- `QuestionGenerator.generate_script` (quiz_generator.py:265-503): the full
Google Apps Script artifact text, the embedded question pool and configuration
fields interleaved with the fixed template chunks. -/
def generateScript (questions : List JsQuestion) (st : ProcState) : Str :=
  scriptChunk1 ++
  natStr questions.length ++
  scriptChunk2 ++
  natStr st.pointsPerQuestion ++
  scriptChunk3 ++
  st.resultsSheet ++
  scriptChunk4 ++
  formatQuestionsForJs questions ++
  scriptChunk5 ++
  natStr questions.length ++
  scriptChunk6 ++
  natStr questions.length ++
  scriptChunk7 ++
  escapeJsString st.title ++
  scriptChunk8 ++
  scriptChunk9 ++
  escapeJsString st.title ++
  scriptChunk10 ++
  scriptChunk11 ++
  escapeJsString st.description ++
  scriptChunk12 ++
  scriptChunk13 ++
  st.resultsSheet ++
  scriptChunk14 ++
  scriptChunk15 ++
  escapeJsString st.confirmationMessage ++
  scriptChunk16 ++
  scriptChunk17 ++
  natStr st.pointsPerQuestion ++
  scriptChunk18 ++
  natStr st.pointsPerQuestion ++
  scriptChunk19 ++
  natStr st.pointsPerQuestion ++
  scriptChunk20

/-- `QuestionGenerator.__init__` (quiz_generator.py:25-46): fixed presentation
settings, then `random.seed(42)` overwriting whatever state (`entropy`) the
process-wide pseudorandom sequence held before construction. -/
def mkGenerator (entropy : Rng) (language : Str) (resultsSheet : Str) : ProcState :=
  { language := pyUpper language
    resultsSheet := resultsSheet
    title := str "AI Citizen"
    description := str "To AI or not to AI, that is the question"
    pointsPerQuestion := 1
    confirmationMessage := str "Hvala ≈°to ste uƒçestvovali u kvizu! / Thanks for taking the quiz!"
    rng := seedRng 42 }

/-- Python `str.lower()` (ASCII case mapping). -/
def pyLower (s : Str) : Str := s.map Char.toLower

/-- `QuestionGenerator.get_file_configs_for_language` (quiz_generator.py:48-72). -/
def getFileConfigsForLanguage (language : Str) : Except PyExc (List FileConfig) :=
  let lang := pyUpper language
  if lang = str "ENG" then
    .ok [⟨str "QAPool/eng/L0/M1/m1.json", 1⟩,
         ⟨str "QAPool/eng/L0/M2/m2.json", 1⟩,
         ⟨str "QAPool/eng/L0/M3/m3.json", 1⟩]
  else if lang = str "SRB" then
    .ok [⟨str "QAPool/srb/L0/M1/m1.json", 1⟩,
         ⟨str "QAPool/srb/L0/M2/m2.json", 1⟩,
         ⟨str "QAPool/srb/L0/M3/m3.json", 1⟩]
  else
    .error (.valueError (str "Unsupported language: " ++ lang ++
      str ". Use 'ENG' or 'SRB'"))

/-- `QuestionGenerator.generate_quiz_from_multiple_files` (quiz_generator.py:570-622):
suffix the title with the bracketed language tag, load and sample from every file,
randomize answers, shuffle the merged pool, render the artifact, and restore the
title.  The restore is the second-to-last statement of the `try` block, so it runs
only when no exception was raised; on an exception the suffixed title stays.  The
`save_script` file write has no effect on the returned value and is not modelled;
`outputPath` is threaded for the call sites that record produced paths. -/
def generateQuizFromMultipleFiles (st : ProcState) (env : Env)
    (fileConfigs : List FileConfig) (_outputPath : Str) :
    Except PyExc Str × ProcState :=
  let originalTitle := st.title
  let st1 := { st with title := originalTitle ++ str " [" ++ st.language ++ str "]" }
  match loadQuestionsFromMultipleFiles env fileConfigs st1.rng with
  | (.error e, r1) => (.error e, { st1 with rng := r1 })
  | (.ok allQuestions, r1) =>
    let conv := convertFormat allQuestions true r1
    let shuf := pyShuffle conv.1 conv.2
    let script := generateScript shuf.1 st1
    (.ok script, { st1 with rng := shuf.2, title := originalTitle })

/-- `QuestionGenerator.generate_quiz_for_language` (quiz_generator.py:677-707). -/
def generateQuizForLanguage (st : ProcState) (env : Env) (language : Str)
    (outputPath : Option Str) (variantNumber : Option Nat) :
    Except PyExc Str × ProcState :=
  let st1 := { st with language := pyUpper language }
  match getFileConfigsForLanguage language with
  | .error e => (.error e, st1)
  | .ok fileConfigs =>
    let path :=
      match outputPath with
      | some p => p
      | none =>
        match variantNumber with
        | some v => str "generated_quiz_" ++ pyLower language ++
            str "_variant_" ++ natStr v ++ str ".gs"
        | none => str "generated_quiz_" ++ pyLower language ++ str ".gs"
    generateQuizFromMultipleFiles st1 env fileConfigs path

/-! ## Batch orchestrator (`quiz_generator_batch.generate_quiz_variants`) -/

/-- The output file name built by the orchestrator loop
(quiz_generator_batch.py:59). -/
def variantFilename (currentDate language : Str) (variantNum : Nat) : Str :=
  str "AI Fundamentals | " ++ currentDate ++ str " | [" ++ language ++
    str "] | Variant " ++ natStr variantNum ++ str ".gs"

/-- The `for variant_num in range(1, num_variants + 1)` loop of
`generate_quiz_variants` (quiz_generator_batch.py:57-77).  `fs` is the filesystem as
observed at each iteration (the loop re-reads the question files every variant).
The `try` block's handler is `except RuntimeError`: any other exception escapes the
loop, which the `Option PyExc` component records. -/
def generateVariantsGo (fs : Nat → Env) (language currentDate outputDir : Str) :
    Nat → Nat → ProcState → List Str → List Str × Option PyExc × ProcState
  | 0, _, st, files => (files, none, st)
  | remaining + 1, variantNum, st, files =>
    let outputPath := outputDir ++ str "/" ++
      variantFilename currentDate language variantNum
    let res := generateQuizForLanguage st (fs variantNum) language
      (some outputPath) (some variantNum)
    match res.1 with
    | .ok _ =>
      generateVariantsGo fs language currentDate outputDir remaining
        (variantNum + 1) res.2 (files ++ [outputPath])
    | .error e =>
      if isRuntimeError e then
        generateVariantsGo fs language currentDate outputDir remaining
          (variantNum + 1) res.2 files
      else
        (files, some e, res.2)

/-- `generate_quiz_variants` (quiz_generator_batch.py:25-81): construct a fresh
generator (reseeding the process-wide sequence) and run the variant loop.  The
returned triple is (paths of produced files, escaped exception if any, final
process state). -/
def generateQuizVariants (fs : Nat → Env) (language : Str) (numVariants : Nat)
    (outputDir resultsSheet currentDate : Str) (entropy : Rng) :
    List Str × Option PyExc × ProcState :=
  let generator := mkGenerator entropy language resultsSheet
  generateVariantsGo fs language currentDate outputDir numVariants 1 generator []

/-- One invocation of the per-variant workflow, for stating determinism of call
sequences against one generator object. -/
structure GenCall where
  env : Env
  fileConfigs : List FileConfig
  outputPath : Str

/-- Run a sequence of `generate_quiz_from_multiple_files` calls against one
generator, threading the process state (in particular the pseudorandom sequence)
from each call into the next. -/
def runCalls : List GenCall → ProcState → List (Except PyExc Str) × ProcState
  | [], st => ([], st)
  | c :: rest, st =>
    let r := generateQuizFromMultipleFiles st c.env c.fileConfigs c.outputPath
    let rr := runCalls rest r.2
    (r.1 :: rr.1, rr.2)

/-- A record used by concrete witnesses: a well-formed question. -/
def sampleRecord : RawQuestion :=
  { question := some (str "Q")
    answers := some (.strings [str "a", str "b", str "c", str "d"])
    correct := some (str "b") }

/-- A record missing its `correct` field (invalid). -/
def badRecord : RawQuestion :=
  { question := some (str "Q2")
    answers := some (.strings [str "a", str "b", str "c", str "d"])
    correct := none }

/-- Environment for the loader witnesses: one missing path, one undecodable file,
one non-list top level, one record list holding a valid and an invalid record. -/
def loaderEnv : Env := fun p =>
  if p = str "bad.json" then some .malformed
  else if p = str "notlist.json" then some .nonListTop
  else if p = str "ok.json" then some (.records [badRecord, sampleRecord, badRecord])
  else none

/-- Environment for the insufficient-count witness: collection `A.json` holds 5
valid records. -/
def insuffEnv : Env := fun p =>
  if p = str "A.json" then some (.records (List.replicate 5 sampleRecord)) else none

/-- The guarantees of one per-collection draw: right length, a sub-permutation of
the collection's valid records (hence no element drawn twice), duplicate-freeness
inherited from the collection. -/
def DrawOk (env : Env) (draw : List RawQuestion) (cfg : FileConfig) : Prop :=
  draw.length = cfg.count ∧
  ∀ qs, loadQuestions env cfg.path = .ok qs →
    List.Subperm draw qs ∧ (qs.Nodup → draw.Nodup)

/-- Environment for the count-law witness: collection `A.json` holds 4 valid
records, collection `B.json` holds 3 distinct valid ones. -/
def countEnv : Env := fun p =>
  if p = str "A.json" then some (.records (List.replicate 4 sampleRecord))
  else if p = str "B.json" then some (.records
    [{ sampleRecord with question := some (str "B1") },
     { sampleRecord with question := some (str "B2") },
     { sampleRecord with question := some (str "B3") }])
  else none

/-- A configuration whose free-text fields contain single quotes but none of the
characters `_escape_js_string` touches. -/
def quoteSt : ProcState :=
  { language := str "ENG"
    resultsSheet := str "sheet"
    title := str "It's AI"
    description := str "Bob's quiz"
    pointsPerQuestion := 1
    confirmationMessage := str "Don't stop"
    rng := seedRng 42 }

/-- Whether a pipeline stage completed without raising. -/
def exceptIsOk {ε α : Type} : Except ε α → Bool
  | .ok _ => true
  | .error _ => false

/-- An environment with no question files at all: every load raises. -/
def emptyEnv : Env := fun _ => none

/-- A freshly constructed generator (ENG). -/
def engGen : ProcState := mkGenerator 0 (str "ENG") (str "sheet")

/-- First failing call: the load raises, so the composed title is never restored. -/
def failRun1 : Except PyExc Str × ProcState :=
  generateQuizFromMultipleFiles engGen emptyEnv [⟨str "m1.json", 1⟩] (str "o.gs")

/-- Second failing call on the same generator object: the tag accumulates. -/
def failRun2 : Except PyExc Str × ProcState :=
  generateQuizFromMultipleFiles failRun1.2 emptyEnv [⟨str "m1.json", 1⟩] (str "o.gs")

/-- Per-variant filesystem for the orchestrator scenario: every question file holds
one valid record, except that at variant 3 the files are empty, so variant 3's
collection draw raises `InsufficientQuestions` (a `ValueError`). -/
def variantFs : Nat → Env := fun v =>
  if v = 3 then (fun _ => some (.records []))
  else (fun _ => some (.records [sampleRecord]))

theorem subst1_append (p : Char) (new : Str) (a b : Str) :
    subst1 p new (a ++ b) = subst1 p new a ++ subst1 p new b := by
  induction a with
  | nil => rfl
  | cons c rest ih => simp [subst1, ih]

theorem pyReplaceAux_singleton (p : Char) (new : Str) :
    ∀ (fuel : Nat) (s : Str), s.length ≤ fuel →
      pyReplaceAux [p] new fuel s = subst1 p new s := by
  intro fuel
  induction fuel with
  | zero =>
    intro s hs
    have hnil : s = [] := List.length_eq_zero.mp (Nat.le_zero.mp hs)
    subst hnil; rfl
  | succ n ih =>
    intro s hs
    match s with
    | [] => rfl
    | c :: rest =>
      have hlen : rest.length ≤ n := by
        simp only [List.length_cons] at hs; omega
      by_cases hc : c = p
      · subst hc
        simp [pyReplaceAux, List.isPrefixOf, subst1, ih rest hlen]
      · simp only [pyReplaceAux, subst1]
        have hcond : ¬([p] ≠ [] ∧ [p].isPrefixOf (c :: rest)) := by
          rintro ⟨-, hpf⟩
          have hbeq : (p == c) = true := by simpa [List.isPrefixOf] using hpf
          exact hc (eq_of_beq hbeq).symm
        rw [if_neg hcond, ih rest hlen, if_neg hc]
        rfl

theorem pyReplace_single (s : Str) (p : Char) (new : Str) :
    pyReplace s [p] new = subst1 p new s :=
  pyReplaceAux_singleton p new s.length s (Nat.le_refl _)

theorem escJsChar_chain (c : Char) :
    subst1 '\r' (str "\\r") (subst1 '\n' (str "\\n") (subst1 '"' (str "\\\"")
      (if c = '\\' then str "\\\\" else [c]))) = escJsChar c := by
  by_cases h1 : c = '\\'
  · subst h1; rfl
  by_cases h2 : c = '"'
  · subst h2; rfl
  by_cases h3 : c = '\n'
  · subst h3; rfl
  by_cases h4 : c = '\r'
  · subst h4; rfl
  simp [subst1, escJsChar, h1, h2, h3, h4]

/-- `_escape_js_string` is a single escaping pass: each input character is escaped
exactly once, backslashes introduced by a later stage are never re-escaped. -/
theorem escapeJsString_once (t : Str) : escapeJsString t = escapeJsOnce t := by
  have h1 : str "\\" = ['\\'] := rfl
  have h2 : str "\"" = ['"'] := rfl
  have h3 : str "\n" = ['\n'] := rfl
  have h4 : str "\r" = ['\r'] := rfl
  unfold escapeJsString
  rw [h1, h2, h3, h4, pyReplace_single, pyReplace_single, pyReplace_single,
    pyReplace_single]
  induction t with
  | nil => rfl
  | cons c rest ih =>
    simp only [subst1, subst1_append, escapeJsOnce]
    rw [ih, escJsChar_chain]

theorem randBelow_lt (r : Rng) (n : Nat) (h : 0 < n) : (randBelow r n).1 < n :=
  Nat.mod_lt _ h

theorem cons_eraseIdx_perm {α : Type} (l : List α) (i : Nat) (h : i < l.length) :
    (l[i] :: l.eraseIdx i).Perm l := by
  induction l generalizing i with
  | nil => simp at h
  | cons a t ih =>
    cases i with
    | zero => simp [List.eraseIdx]
    | succ n =>
      have hn : n < t.length := by simpa using h
      have hswap : (t[n] :: a :: t.eraseIdx n).Perm
          (a :: t[n] :: t.eraseIdx n) := List.Perm.swap a _ _
      simpa [List.eraseIdx] using hswap.trans ((ih n hn).cons a)

theorem sampleAux_append_perm {α : Type} :
    ∀ (k : Nat) (l : List α) (r : Rng), ∃ rest, ((sampleAux k l r).1 ++ rest).Perm l := by
  intro k
  induction k with
  | zero => intro l r; exact ⟨l, by simp [sampleAux]⟩
  | succ k ih =>
    intro l r
    match l with
    | [] => exact ⟨[], by simp [sampleAux]⟩
    | x :: xs =>
      have hpos : 0 < (x :: xs).length := by simp
      have hi : (randBelow r (x :: xs).length).1 < (x :: xs).length :=
        randBelow_lt _ _ hpos
      obtain ⟨rest, hrest⟩ :=
        ih ((x :: xs).eraseIdx (randBelow r (x :: xs).length).1)
          (randBelow r (x :: xs).length).2
      refine ⟨rest, ?_⟩
      show ((x :: xs).getD (randBelow r (x :: xs).length).1 x ::
          ((sampleAux k ((x :: xs).eraseIdx (randBelow r (x :: xs).length).1)
            (randBelow r (x :: xs).length).2).1 ++ rest)).Perm (x :: xs)
      rw [List.getD_eq_getElem (x :: xs) x hi]
      exact (hrest.cons _).trans (cons_eraseIdx_perm _ _ hi)

theorem sampleAux_length {α : Type} :
    ∀ (k : Nat) (l : List α) (r : Rng), k ≤ l.length →
      (sampleAux k l r).1.length = k := by
  intro k
  induction k with
  | zero => intro l r _; simp [sampleAux]
  | succ k ih =>
    intro l r hk
    match l with
    | [] => simp at hk
    | x :: xs =>
      have hpos : 0 < (x :: xs).length := by simp
      have hi : (randBelow r (x :: xs).length).1 < (x :: xs).length :=
        randBelow_lt _ _ hpos
      have hlen : ((x :: xs).eraseIdx (randBelow r (x :: xs).length).1).length =
          (x :: xs).length - 1 := List.length_eraseIdx_of_lt hi
      have hk' : k ≤ ((x :: xs).eraseIdx (randBelow r (x :: xs).length).1).length := by
        simp only [hlen]
        simp only [List.length_cons] at hk ⊢
        omega
      show (sampleAux k ((x :: xs).eraseIdx (randBelow r (x :: xs).length).1)
          (randBelow r (x :: xs).length).2).1.length + 1 = k + 1
      rw [ih _ _ hk']

theorem pySample_subperm {α : Type} (population : List α) (k : Nat) (r : Rng) :
    List.Subperm (pySample population k r).1 population := by
  obtain ⟨rest, hrest⟩ := sampleAux_append_perm k population r
  have h1 : List.Subperm (pySample population k r).1 ((pySample population k r).1 ++ rest) :=
    ⟨(pySample population k r).1, List.Perm.refl _, List.sublist_append_left _ _⟩
  exact h1.trans hrest.subperm

theorem pySample_length {α : Type} (population : List α) (k : Nat) (r : Rng)
    (h : k ≤ population.length) : (pySample population k r).1.length = k :=
  sampleAux_length k population r h

theorem pyShuffle_perm {α : Type} (xs : List α) (r : Rng) :
    ((pyShuffle xs r).1).Perm xs := by
  obtain ⟨rest, hrest⟩ := sampleAux_append_perm xs.length xs r
  have hlen : (sampleAux xs.length xs r).1.length = xs.length :=
    sampleAux_length xs.length xs r (Nat.le_refl _)
  have hrl : rest = [] := by
    have := hrest.length_eq
    simp only [List.length_append, hlen] at this
    exact List.length_eq_zero.mp (by omega)
  subst hrl
  simpa [pyShuffle] using hrest

theorem pyIndex_lt_length {α : Type} [DecidableEq α] {l : List α} {a : α}
    (h : a ∈ l) : pyIndex l a < l.length := by
  induction l with
  | nil => simp at h
  | cons x rest ih =>
    by_cases hx : x = a
    · simp [pyIndex, hx]
    · have : a ∈ rest := by
        cases h with
        | head => exact absurd rfl hx
        | tail _ h => exact h
      simp only [pyIndex, if_neg hx, List.length_cons]
      exact Nat.succ_lt_succ (ih this)

theorem getElem?_pyIndex {α : Type} [DecidableEq α] {l : List α} {a : α}
    (h : a ∈ l) : l[pyIndex l a]? = some a := by
  induction l with
  | nil => simp at h
  | cons x rest ih =>
    by_cases hx : x = a
    · simp [pyIndex, hx]
    · have : a ∈ rest := by
        cases h with
        | head => exact absurd rfl hx
        | tail _ h => exact h
      simp [pyIndex, if_neg hx, ih this]

/-! ## Claim theorems -/

theorem validateQuestion_irrel (q : RawQuestion) (i j : Nat) :
    validateQuestion q i = validateQuestion q j := rfl

theorem collectValid_eq_filter :
    ∀ (i : Nat) (rs : List RawQuestion),
      collectValid i rs = rs.filter (validateQuestion · 0) := by
  intro i rs
  induction rs generalizing i with
  | nil => rfl
  | cons q rest ih =>
    simp only [collectValid, List.filter_cons, validateQuestion_irrel q i 0]
    by_cases hv : validateQuestion q 0 = true
    · simp [hv, ih]
    · simp [Bool.eq_false_iff.mpr hv, ih, hv]

theorem validateQuestion_iff (q : RawQuestion) (i : Nat) :
    validateQuestion q i = true ↔
      q.question.isSome ∧ ∃ xs, q.answers = some (.strings xs) ∧ xs.length = 4 ∧
        ∃ c, q.correct = some c ∧ c ∈ xs := by
  rcases q with ⟨qq, qa, qc⟩
  rcases qa with - | av
  · simp [validateQuestion]
  rcases av with xs | -
  · rcases qq with - | qv
    · simp [validateQuestion]
    rcases qc with - | cv
    · simp [validateQuestion]
    by_cases hlen : xs.length = 4
    · by_cases hmem : cv ∈ xs
      · simp [validateQuestion, hlen, hmem]
      · simp [validateQuestion, hlen, hmem]
    · simp [validateQuestion, hlen]
  · rcases qq with - | qv <;> rcases qc with - | cv <;> simp [validateQuestion]

/-- C7: for every top-level sequence of records, the loader returns exactly the
subsequence of valid records — valid meaning all three required fields present,
`answers` a list of exactly 4 entries, and `correct` verbatim among them — in the
original order with invalid records elided. -/
theorem loader_returns_valid_subsequence (env : Env) (path : Str)
    (rs : List RawQuestion) (q : RawQuestion) (i : Nat)
    (h : env path = some (.records rs)) :
    loadQuestions env path = .ok (rs.filter (validateQuestion · 0)) ∧
    List.Sublist (rs.filter (validateQuestion · 0)) rs ∧
    (validateQuestion q i = true ↔
      q.question.isSome ∧ ∃ xs, q.answers = some (.strings xs) ∧ xs.length = 4 ∧
        ∃ c, q.correct = some c ∧ c ∈ xs) := by
  refine ⟨?_, List.filter_sublist rs, validateQuestion_iff q i⟩
  simp [loadQuestions, h, collectValid_eq_filter]

theorem loader_returns_valid_subsequence_witness :
    loadQuestions loaderEnv (str "ok.json") =
      .ok ([badRecord, sampleRecord, badRecord].filter (validateQuestion · 0)) ∧
    List.Sublist ([badRecord, sampleRecord, badRecord].filter (validateQuestion · 0))
      [badRecord, sampleRecord, badRecord] ∧
    (validateQuestion sampleRecord 0 = true ↔
      sampleRecord.question.isSome ∧
      ∃ xs, sampleRecord.answers = some (.strings xs) ∧ xs.length = 4 ∧
        ∃ c, sampleRecord.correct = some c ∧ c ∈ xs) :=
  loader_returns_valid_subsequence loaderEnv (str "ok.json")
    [badRecord, sampleRecord, badRecord] sampleRecord 0 rfl

/-- C8: the loader fails with `FileNotFoundError` when the file is missing and with
`ValueError` when the top level is not a list of records; for every top-level record
list it succeeds with the valid subset, however many records are invalid. -/
theorem loader_error_taxonomy (env : Env) (path : Str) :
    (env path = none →
      loadQuestions env path =
        .error (.fileNotFoundError (str "Question file not found: " ++ path))) ∧
    (env path = some .nonListTop →
      loadQuestions env path =
        .error (.valueError (str "JSON file must contain a list of questions"))) ∧
    (∀ rs, env path = some (.records rs) →
      loadQuestions env path = .ok (rs.filter (validateQuestion · 0))) := by
  refine ⟨fun h => ?_, fun h => ?_, fun rs h => ?_⟩ <;>
    simp [loadQuestions, h, collectValid_eq_filter]

theorem loader_error_taxonomy_witness :
    loadQuestions loaderEnv (str "missing.json") =
      .error (.fileNotFoundError (str "Question file not found: " ++ str "missing.json")) ∧
    loadQuestions loaderEnv (str "notlist.json") =
      .error (.valueError (str "JSON file must contain a list of questions")) ∧
    loadQuestions loaderEnv (str "ok.json") =
      .ok ([badRecord, sampleRecord, badRecord].filter (validateQuestion · 0)) :=
  ⟨(loader_error_taxonomy loaderEnv (str "missing.json")).1 rfl,
   (loader_error_taxonomy loaderEnv (str "notlist.json")).2.1 rfl,
   (loader_error_taxonomy loaderEnv (str "ok.json")).2.2 _ rfl⟩

theorem loadMultipleGo_insufficient (env : Env) :
    ∀ (pre : List FileConfig) (cfg : FileConfig) (post : List FileConfig)
      (acc : List RawQuestion) (r : Rng),
      (∀ c ∈ pre, ∃ qs, loadQuestions env c.path = .ok qs ∧ c.count ≤ qs.length) →
      ∀ (qs : List RawQuestion), loadQuestions env cfg.path = .ok qs →
      qs.length < cfg.count →
      ∃ r', loadMultipleGo env (pre ++ cfg :: post) acc r =
        (.error (.valueError (insufficientMsg cfg.path qs.length cfg.count)), r') := by
  intro pre
  induction pre with
  | nil =>
    intro cfg post acc r _ qs hload hlt
    refine ⟨r, ?_⟩
    simp [loadMultipleGo, hload, hlt]
  | cons c pre ih =>
    intro cfg post acc r hpre qs hload hlt
    obtain ⟨qs1, hq1, hc1⟩ := hpre c (List.mem_cons_self c pre)
    have hpre' : ∀ c' ∈ pre, ∃ qs', loadQuestions env c'.path = .ok qs' ∧
        c'.count ≤ qs'.length :=
      fun c' hc' => hpre c' (List.mem_cons_of_mem c hc')
    simp only [List.cons_append, loadMultipleGo, hq1, Nat.not_lt.mpr hc1, if_false]
    exact ih cfg post _ _ hpre' qs hload hlt

/-- C6: whenever some collection's valid-record count is below its required count,
the multi-file load fails with the `ValueError` whose message names the offending
file and both counts (the available and the required one). -/
theorem assemble_insufficient (env : Env) (pre : List FileConfig) (cfg : FileConfig)
    (post : List FileConfig) (r : Rng)
    (hpre : ∀ c ∈ pre, ∃ qs, loadQuestions env c.path = .ok qs ∧ c.count ≤ qs.length)
    (qs : List RawQuestion) (hload : loadQuestions env cfg.path = .ok qs)
    (hlt : qs.length < cfg.count) :
    (∃ r', loadQuestionsFromMultipleFiles env (pre ++ cfg :: post) r =
      (.error (.valueError (insufficientMsg cfg.path qs.length cfg.count)), r')) ∧
    List.IsInfix cfg.path (insufficientMsg cfg.path qs.length cfg.count) ∧
    List.IsInfix (natStr qs.length) (insufficientMsg cfg.path qs.length cfg.count) ∧
    List.IsInfix (natStr cfg.count) (insufficientMsg cfg.path qs.length cfg.count) := by
  refine ⟨loadMultipleGo_insufficient env pre cfg post [] r hpre qs hload hlt,
    ⟨str "File ", str " has only " ++ natStr qs.length ++ str " questions, but " ++
      natStr cfg.count ++ str " required", ?_⟩,
    ⟨str "File " ++ cfg.path ++ str " has only ", str " questions, but " ++
      natStr cfg.count ++ str " required", ?_⟩,
    ⟨str "File " ++ cfg.path ++ str " has only " ++ natStr qs.length ++
      str " questions, but ", str " required", ?_⟩⟩ <;>
    simp [insufficientMsg, List.append_assoc]

theorem assemble_insufficient_witness :
    (∃ r', loadQuestionsFromMultipleFiles insuffEnv [⟨str "A.json", 100⟩] 0 =
      (.error (.valueError (insufficientMsg (str "A.json")
        (List.replicate 5 sampleRecord).length 100)), r')) ∧
    List.IsInfix (str "A.json")
      (insufficientMsg (str "A.json") (List.replicate 5 sampleRecord).length 100) ∧
    List.IsInfix (natStr (List.replicate 5 sampleRecord).length)
      (insufficientMsg (str "A.json") (List.replicate 5 sampleRecord).length 100) ∧
    List.IsInfix (natStr 100)
      (insufficientMsg (str "A.json") (List.replicate 5 sampleRecord).length 100) :=
  assemble_insufficient insuffEnv [] ⟨str "A.json", 100⟩ [] 0 (by simp)
    (List.replicate 5 sampleRecord) rfl (by simp)

theorem loadMultipleGo_ok (env : Env) :
    ∀ (configs : List FileConfig) (acc : List RawQuestion) (r : Rng),
      (∀ cfg ∈ configs, ∃ qs, loadQuestions env cfg.path = .ok qs ∧
        cfg.count ≤ qs.length) →
      ∃ draws r', loadMultipleGo env configs acc r = (.ok (acc ++ draws.flatten), r') ∧
        List.Forall₂ (DrawOk env) draws configs := by
  intro configs
  induction configs with
  | nil =>
    intro acc r _
    exact ⟨[], r, by simp [loadMultipleGo], List.Forall₂.nil⟩
  | cons cfg rest ih =>
    intro acc r h
    obtain ⟨qs, hq, hc⟩ := h cfg (List.mem_cons_self cfg rest)
    obtain ⟨draws, r', hrec, hall⟩ :=
      ih (acc ++ (pySample qs cfg.count r).1) (pySample qs cfg.count r).2
        (fun c hcm => h c (List.mem_cons_of_mem cfg hcm))
    refine ⟨(pySample qs cfg.count r).1 :: draws, r', ?_, ?_⟩
    · simp only [loadMultipleGo, hq, Nat.not_lt.mpr hc, if_false]
      rw [hrec]
      simp [List.append_assoc]
    · refine List.Forall₂.cons ⟨pySample_length qs cfg.count r hc, ?_⟩ hall
      intro qs' hq'
      rw [hq] at hq'
      cases hq'
      refine ⟨pySample_subperm qs cfg.count r, fun hnd => ?_⟩
      obtain ⟨l, hperm, hsub⟩ := pySample_subperm qs cfg.count r
      exact hperm.nodup (hsub.nodup hnd)

theorem flatten_length_of_drawOk (env : Env) :
    ∀ {draws : List (List RawQuestion)} {configs : List FileConfig},
      List.Forall₂ (DrawOk env) draws configs →
      draws.flatten.length = (configs.map FileConfig.count).sum := by
  intro draws configs h
  induction h with
  | nil => rfl
  | cons hd _ ih => simp [List.flatten, hd.1, ih]

/-- C5: when every collection holds at least as many valid records as required, the
multi-file load succeeds with exactly the sum of the required counts; the result is
the concatenation of per-collection draws, each draw a sub-permutation (without
replacement) of its collection, and the subsequent whole-pool shuffle emits a
permutation of that concatenation. -/
theorem assemble_count_law (env : Env) (configs : List FileConfig) (r : Rng)
    (h : ∀ cfg ∈ configs, ∃ qs, loadQuestions env cfg.path = .ok qs ∧
      cfg.count ≤ qs.length) :
    ∃ draws r',
      loadQuestionsFromMultipleFiles env configs r = (.ok draws.flatten, r') ∧
      draws.flatten.length = (configs.map FileConfig.count).sum ∧
      List.Forall₂ (DrawOk env) draws configs ∧
      ∀ r₂, ((pyShuffle draws.flatten r₂).1).Perm draws.flatten := by
  obtain ⟨draws, r', hrun, hall⟩ := loadMultipleGo_ok env configs [] r h
  refine ⟨draws, r', by simpa [loadQuestionsFromMultipleFiles] using hrun,
    flatten_length_of_drawOk env hall, hall, fun r₂ => pyShuffle_perm _ r₂⟩

theorem assemble_count_law_witness :
    ∃ draws r',
      loadQuestionsFromMultipleFiles countEnv
        [⟨str "A.json", 2⟩, ⟨str "B.json", 3⟩] 7 = (.ok draws.flatten, r') ∧
      draws.flatten.length =
        (([⟨str "A.json", 2⟩, ⟨str "B.json", 3⟩] : List FileConfig).map
          FileConfig.count).sum ∧
      List.Forall₂ (DrawOk countEnv) draws [⟨str "A.json", 2⟩, ⟨str "B.json", 3⟩] ∧
      ∀ r₂, ((pyShuffle draws.flatten r₂).1).Perm draws.flatten := by
  refine assemble_count_law countEnv [⟨str "A.json", 2⟩, ⟨str "B.json", 3⟩] 7 ?_
  intro cfg hcfg
  simp only [List.mem_cons, List.not_mem_nil, or_false] at hcfg
  rcases hcfg with rfl | rfl
  · exact ⟨List.replicate 4 sampleRecord, rfl, by simp⟩
  · exact ⟨[{ sampleRecord with question := some (str "B1") },
      { sampleRecord with question := some (str "B2") },
      { sampleRecord with question := some (str "B3") }], rfl, by simp⟩

/-- C2: on inputs whose `correct` is among their `answers`, `convert_format`
returns one output per input; each output's choices are a permutation of that
record's options, the correct index is in range, and the choice at the correct
index is the record's original correct option — for both values of the shuffle
flag and any generator state. -/
theorem randomizer_correct_index (questions : List RawQuestion) (flag : Bool)
    (r : Rng) (h : ∀ q ∈ questions, qCorrect q ∈ qAnswers q) :
    (convertFormat questions flag r).1.length = questions.length ∧
    List.Forall₂ (fun (q : RawQuestion) (a : JsQuestion) =>
      a.question = qQuestion q ∧
      (a.choices).Perm (qAnswers q) ∧
      a.correct < a.choices.length ∧
      a.choices[a.correct]? = some (qCorrect q))
      questions (convertFormat questions flag r).1 := by
  induction questions generalizing r with
  | nil => exact ⟨rfl, List.Forall₂.nil⟩
  | cons q rest ih =>
    have hq : qCorrect q ∈ qAnswers q := h q (List.mem_cons_self q rest)
    have hrest : ∀ q' ∈ rest, qCorrect q' ∈ qAnswers q' :=
      fun q' hm => h q' (List.mem_cons_of_mem q hm)
    have hperm : ((if flag then pyShuffle (qAnswers q) r
        else (qAnswers q, r)).1).Perm (qAnswers q) := by
      cases flag
      · simp
      · simpa using pyShuffle_perm (qAnswers q) r
    have hmem : qCorrect q ∈ (if flag then pyShuffle (qAnswers q) r
        else (qAnswers q, r)).1 := hperm.mem_iff.mpr hq
    obtain ⟨ihlen, ihall⟩ :=
      ih (if flag then pyShuffle (qAnswers q) r else (qAnswers q, r)).2 hrest
    refine ⟨by simpa [convertFormat] using ihlen, ?_⟩
    exact List.Forall₂.cons
      ⟨rfl, hperm, pyIndex_lt_length hmem, getElem?_pyIndex hmem⟩ ihall

theorem randomizer_correct_index_witness :
    (convertFormat [sampleRecord] true 0).1.length = [sampleRecord].length ∧
    List.Forall₂ (fun (q : RawQuestion) (a : JsQuestion) =>
      a.question = qQuestion q ∧
      (a.choices).Perm (qAnswers q) ∧
      a.correct < a.choices.length ∧
      a.choices[a.correct]? = some (qCorrect q))
      [sampleRecord] (convertFormat [sampleRecord] true 0).1 :=
  randomizer_correct_index [sampleRecord] true 0 (by
    intro q hm
    simp only [List.mem_singleton] at hm
    subst hm
    decide)

/-- C3 counterexample: the choice text `a"b` is escaped twice in the rendered
choices fragment — once by `_escape_js_string` and once more by `json.dumps` — so
the embedded text is `a\\\"b` where a single escaping pass (either alone) yields
`a\"b`. -/
theorem renderer_double_escapes_choices :
    formatQuestionsForJs [⟨str "Q", [str "a\"b"], 0⟩] =
      str "[\n    \x7b\n      question: \"Q\",\n      choices: [\"a\\\\\\\"b\"],\n      correct: 0\n    \x7d\n  ]" ∧
    jsonDumpsList [str "a\"b"] = str "[\"a\\\"b\"]" ∧
    escapeJsString (str "a\"b") = str "a\\\"b" ∧
    jsonDumpsList [escapeJsString (str "a\"b")] ≠ jsonDumpsList [str "a\"b"] :=
  ⟨rfl, rfl, rfl, by decide⟩

theorem questionBlocks_extract :
    ∀ (qs : List JsQuestion) (i : Nat) (h : i < qs.length),
      ∃ l r, questionBlocks qs = l ++ questionBlock (qs.get ⟨i, h⟩) ++ r := by
  intro qs
  induction qs with
  | nil => intro i h; simp at h
  | cons q rest ih =>
    intro i h
    match rest, i with
    | [], 0 => exact ⟨[], str "\n", rfl⟩
    | [], j + 1 => simp at h
    | x :: xs, 0 => exact ⟨[], str ",\n" ++ questionBlocks (x :: xs), by simp [questionBlocks]⟩
    | x :: xs, j + 1 =>
      have hj : j < (x :: xs).length := by simpa using h
      obtain ⟨l, r, hlr⟩ := ih j hj
      refine ⟨questionBlock q ++ str ",\n" ++ l, r, ?_⟩
      simp only [questionBlocks, hlr, List.append_assoc]
      rfl

/-- C3 amended: `_escape_js_string` escapes in the stated order and is a single
pass (each character escaped exactly once); the renderer embeds every question
prompt escaped exactly once, but embeds the choices of every question escaped by
`_escape_js_string` and then a second time by the JSON serializer. -/
theorem renderer_escaping_discipline (t : Str) (questions : List JsQuestion)
    (i : Nat) (h : i < questions.length) :
    escapeJsString t = escapeJsOnce t ∧
    (∃ l r, formatQuestionsForJs questions =
      l ++ escapeJsString (questions.get ⟨i, h⟩).question ++ r) ∧
    (∃ l r, formatQuestionsForJs questions =
      l ++ jsonDumpsList (((questions.get ⟨i, h⟩).choices).map escapeJsString) ++ r) := by
  obtain ⟨l, r, hlr⟩ := questionBlocks_extract questions i h
  refine ⟨escapeJsString_once t, ?_, ?_⟩
  · refine ⟨str "[\n" ++ l ++ str "    \x7b\n      question: \"",
      str "\",\n      choices: " ++
        jsonDumpsList (((questions.get ⟨i, h⟩).choices).map escapeJsString) ++
        str ",\n      correct: " ++ natStr (questions.get ⟨i, h⟩).correct ++
        str "\n    \x7d" ++ r ++ str "  ]", ?_⟩
    simp [formatQuestionsForJs, hlr, questionBlock, List.append_assoc]
  · refine ⟨str "[\n" ++ l ++ str "    \x7b\n      question: \"" ++
        escapeJsString (questions.get ⟨i, h⟩).question ++ str "\",\n      choices: ",
      str ",\n      correct: " ++ natStr (questions.get ⟨i, h⟩).correct ++
        str "\n    \x7d" ++ r ++ str "  ]", ?_⟩
    simp [formatQuestionsForJs, hlr, questionBlock, List.append_assoc]

theorem renderer_escaping_discipline_witness :
    escapeJsString (str "x") = escapeJsOnce (str "x") ∧
    (∃ l r, formatQuestionsForJs [⟨str "Q", [str "a\"b"], 0⟩] =
      l ++ escapeJsString (([⟨str "Q", [str "a\"b"], 0⟩] :
        List JsQuestion).get ⟨0, by simp⟩).question ++ r) ∧
    (∃ l r, formatQuestionsForJs [⟨str "Q", [str "a\"b"], 0⟩] =
      l ++ jsonDumpsList ((([⟨str "Q", [str "a\"b"], 0⟩] :
        List JsQuestion).get ⟨0, by simp⟩).choices.map escapeJsString) ++ r) :=
  renderer_escaping_discipline (str "x") [⟨str "Q", [str "a\"b"], 0⟩] 0 (by simp)

theorem escapeJsOnce_id (s : Str)
    (h : ∀ c ∈ s, c ≠ '\\' ∧ c ≠ '"' ∧ c ≠ '\n' ∧ c ≠ '\r') : escapeJsOnce s = s := by
  induction s with
  | nil => rfl
  | cons c rest ih =>
    obtain ⟨h1, h2, h3, h4⟩ := h c (List.mem_cons_self c rest)
    have hrest := fun c' hm => h c' (List.mem_cons_of_mem c hm)
    simp [escapeJsOnce, escJsChar, h1, h2, h3, h4, ih hrest]

theorem escapeJsString_id (s : Str)
    (h : ∀ c ∈ s, c ≠ '\\' ∧ c ≠ '"' ∧ c ≠ '\n' ∧ c ≠ '\r') : escapeJsString s = s :=
  (escapeJsString_once s).trans (escapeJsOnce_id s h)

/-- C10: `_escape_js_string` never touches the single-quote character — any string
free of backslash, double quote, newline and carriage return passes through
unchanged — while `generate_script` embeds the escaped title, description and
confirmation message between single quotes; so a single quote in these fields
appears unescaped inside a single-quoted literal of the artifact. -/
theorem single_quote_unescaped (st : ProcState) (questions : List JsQuestion)
    (ht : ∀ c ∈ st.title, c ≠ '\\' ∧ c ≠ '"' ∧ c ≠ '\n' ∧ c ≠ '\r')
    (hd : ∀ c ∈ st.description, c ≠ '\\' ∧ c ≠ '"' ∧ c ≠ '\n' ∧ c ≠ '\r')
    (hc : ∀ c ∈ st.confirmationMessage, c ≠ '\\' ∧ c ≠ '"' ∧ c ≠ '\n' ∧ c ≠ '\r') :
    escapeJsString st.title = st.title ∧
    escapeJsString st.description = st.description ∧
    escapeJsString st.confirmationMessage = st.confirmationMessage ∧
    List.IsInfix (str "form.setTitle('" ++ st.title ++ str "');")
      (generateScript questions st) ∧
    List.IsInfix (str "form.setDescription('" ++ st.description ++ str "');")
      (generateScript questions st) ∧
    List.IsInfix (str "form.setConfirmationMessage('" ++ st.confirmationMessage ++
      str "');") (generateScript questions st) := by
  have hT := escapeJsString_id st.title ht
  have hD := escapeJsString_id st.description hd
  have hC := escapeJsString_id st.confirmationMessage hc
  have h10 : scriptChunk10 = str "');" ++ str "\n  " := rfl
  refine ⟨hT, hD, hC,
    ⟨scriptChunk1 ++ natStr questions.length ++ scriptChunk2 ++
      natStr st.pointsPerQuestion ++ scriptChunk3 ++ st.resultsSheet ++
      scriptChunk4 ++ formatQuestionsForJs questions ++ scriptChunk5 ++
      natStr questions.length ++ scriptChunk6 ++ natStr questions.length ++
      scriptChunk7 ++ st.title ++ scriptChunk8,
     str "\n  " ++ scriptChunk11 ++ st.description ++ scriptChunk12 ++
      scriptChunk13 ++ st.resultsSheet ++ scriptChunk14 ++ scriptChunk15 ++
      st.confirmationMessage ++ scriptChunk16 ++ scriptChunk17 ++
      natStr st.pointsPerQuestion ++ scriptChunk18 ++ natStr st.pointsPerQuestion ++
      scriptChunk19 ++ natStr st.pointsPerQuestion ++ scriptChunk20, ?_⟩,
    ⟨scriptChunk1 ++ natStr questions.length ++ scriptChunk2 ++
      natStr st.pointsPerQuestion ++ scriptChunk3 ++ st.resultsSheet ++
      scriptChunk4 ++ formatQuestionsForJs questions ++ scriptChunk5 ++
      natStr questions.length ++ scriptChunk6 ++ natStr questions.length ++
      scriptChunk7 ++ st.title ++ scriptChunk8 ++ scriptChunk9 ++ st.title ++
      str "');" ++ str "\n  ",
     scriptChunk13 ++ st.resultsSheet ++ scriptChunk14 ++ scriptChunk15 ++
      st.confirmationMessage ++ scriptChunk16 ++ scriptChunk17 ++
      natStr st.pointsPerQuestion ++ scriptChunk18 ++ natStr st.pointsPerQuestion ++
      scriptChunk19 ++ natStr st.pointsPerQuestion ++ scriptChunk20, ?_⟩,
    ⟨scriptChunk1 ++ natStr questions.length ++ scriptChunk2 ++
      natStr st.pointsPerQuestion ++ scriptChunk3 ++ st.resultsSheet ++
      scriptChunk4 ++ formatQuestionsForJs questions ++ scriptChunk5 ++
      natStr questions.length ++ scriptChunk6 ++ natStr questions.length ++
      scriptChunk7 ++ st.title ++ scriptChunk8 ++ scriptChunk9 ++ st.title ++
      scriptChunk10 ++ scriptChunk11 ++ st.description ++ scriptChunk12 ++
      scriptChunk13 ++ st.resultsSheet ++ scriptChunk14,
     scriptChunk17 ++ natStr st.pointsPerQuestion ++ scriptChunk18 ++
      natStr st.pointsPerQuestion ++ scriptChunk19 ++ natStr st.pointsPerQuestion ++
      scriptChunk20, ?_⟩⟩ <;>
  · simp only [generateScript, hT, hD, hC, h10, scriptChunk9, scriptChunk11,
      scriptChunk12, scriptChunk15, scriptChunk16, List.append_assoc]

theorem single_quote_unescaped_witness :
    escapeJsString quoteSt.title = quoteSt.title ∧
    escapeJsString quoteSt.description = quoteSt.description ∧
    escapeJsString quoteSt.confirmationMessage = quoteSt.confirmationMessage ∧
    List.IsInfix (str "form.setTitle('" ++ quoteSt.title ++ str "');")
      (generateScript [] quoteSt) ∧
    List.IsInfix (str "form.setDescription('" ++ quoteSt.description ++ str "');")
      (generateScript [] quoteSt) ∧
    List.IsInfix (str "form.setConfirmationMessage('" ++
      quoteSt.confirmationMessage ++ str "');") (generateScript [] quoteSt) :=
  single_quote_unescaped quoteSt [] (by decide) (by decide) (by decide)

/-- C4 counterexample: after a call that fails, the generator's title is left
suffixed (`AI Citizen [ENG]` instead of `AI Citizen`), and a subsequent call
composes a doubly suffixed title. -/
theorem title_accumulates_on_failure :
    exceptIsOk failRun1.1 = false ∧
    failRun1.2.title = str "AI Citizen [ENG]" ∧
    failRun1.2.title ≠ engGen.title ∧
    failRun2.2.title = str "AI Citizen [ENG] [ENG]" :=
  ⟨rfl, rfl, by decide, rfl⟩

/-- C4 amended: `generate_quiz_from_multiple_files` restores the title exactly on
the calls that complete without raising; a call whose load raises returns with the
bracketed language tag still appended to the title. -/
theorem title_restored_on_success (st : ProcState) (env : Env)
    (cfgs : List FileConfig) (p : Str) :
    (exceptIsOk (loadQuestionsFromMultipleFiles env cfgs st.rng).1 = true →
      ((generateQuizFromMultipleFiles st env cfgs p).2).title = st.title) ∧
    (exceptIsOk (loadQuestionsFromMultipleFiles env cfgs st.rng).1 = false →
      ((generateQuizFromMultipleFiles st env cfgs p).2).title =
        st.title ++ str " [" ++ st.language ++ str "]") := by
  rcases hres : loadQuestionsFromMultipleFiles env cfgs st.rng with ⟨res, r1⟩
  cases res with
  | ok v =>
    refine ⟨fun _ => ?_, fun hfalse => ?_⟩
    · simp [generateQuizFromMultipleFiles, hres]
    · simp [exceptIsOk] at hfalse
  | error e =>
    refine ⟨fun htrue => ?_, fun _ => ?_⟩
    · simp [exceptIsOk] at htrue
    · simp [generateQuizFromMultipleFiles, hres]

theorem title_restored_on_success_witness :
    ((generateQuizFromMultipleFiles engGen countEnv
      [⟨str "A.json", 2⟩, ⟨str "B.json", 3⟩] (str "o.gs")).2).title = engGen.title ∧
    ((generateQuizFromMultipleFiles engGen emptyEnv
      [⟨str "m1.json", 1⟩] (str "o.gs")).2).title =
        engGen.title ++ str " [" ++ engGen.language ++ str "]" :=
  ⟨(title_restored_on_success engGen countEnv
      [⟨str "A.json", 2⟩, ⟨str "B.json", 3⟩] (str "o.gs")).1 rfl,
   (title_restored_on_success engGen emptyEnv
      [⟨str "m1.json", 1⟩] (str "o.gs")).2 rfl⟩

/-- C1 evaluation: requesting 5 variants where variant 3's collection draw fails
with the insufficient-questions `ValueError` produces only the 2 files of variants
1 and 2 — the `except RuntimeError` handler does not match a `ValueError`, so the
exception escapes the loop instead of the variant being skipped. -/
theorem orchestrator_aborts_on_value_error :
    (generateQuizVariants variantFs (str "ENG") 5 (str "/tmp") (str "sheet")
        (str "2026-10-12") 0).1 =
      [str "/tmp/AI Fundamentals | 2026-10-12 | [ENG] | Variant 1.gs",
       str "/tmp/AI Fundamentals | 2026-10-12 | [ENG] | Variant 2.gs"] ∧
    (generateQuizVariants variantFs (str "ENG") 5 (str "/tmp") (str "sheet")
        (str "2026-10-12") 0).2.1 =
      some (.valueError (insufficientMsg (str "QAPool/eng/L0/M1/m1.json") 0 1)) ∧
    isRuntimeError
      (.valueError (insufficientMsg (str "QAPool/eng/L0/M1/m1.json") 0 1)) = false :=
  ⟨rfl, rfl, rfl⟩

theorem runCalls_append (cs ds : List GenCall) (st : ProcState) :
    runCalls (cs ++ ds) st =
      ((runCalls cs st).1 ++ (runCalls ds (runCalls cs st).2).1,
        (runCalls ds (runCalls cs st).2).2) := by
  induction cs generalizing st with
  | nil => simp [runCalls]
  | cons c rest ih => simp [runCalls, ih]

/-- C9: constructing a generator seeds the process-wide sequence to the fixed
constant 42 regardless of the entropy the process held before, so any two fresh
processes that construct a generator and then run the same calls produce identical
outputs; and a sequence of calls threads one pseudorandom state from call to call
(the tail of a run continues from the state the prefix left, with no per-call
reseeding). -/
theorem seeded_determinism (e₁ e₂ : Rng) (language resultsSheet : Str)
    (calls cs ds : List GenCall) (st : ProcState) :
    (mkGenerator e₁ language resultsSheet).rng = seedRng 42 ∧
    mkGenerator e₁ language resultsSheet = mkGenerator e₂ language resultsSheet ∧
    runCalls calls (mkGenerator e₁ language resultsSheet) =
      runCalls calls (mkGenerator e₂ language resultsSheet) ∧
    runCalls (cs ++ ds) st =
      ((runCalls cs st).1 ++ (runCalls ds (runCalls cs st).2).1,
        (runCalls ds (runCalls cs st).2).2) :=
  ⟨rfl, rfl, rfl, runCalls_append cs ds st⟩

end AiQuiz

